import Mathlib

/-!
Verification of the fiscal-document derivation pipeline of courier-sync-forge:
the CUFE generator (`src/lib/cufeGenerator.ts`), the QR payload builders
(`src/lib/qrGenerator.ts`), the invoice-emission hook
(`src/hooks/useInvoiceEmission.ts`) and the password-recovery handlers
(`src/components/PasswordRecovery.tsx`), shallowly embedded in Lean.

JavaScript numbers are modelled as rationals, machine-word arithmetic of the
SHA-384 digest as naturals reduced mod 2 ^ 64, strings as Lean strings, and
optional/undefined-able fields as `Option`.
-/

namespace CourierSync

/-! ### JavaScript string and number primitives -/

/-- JS `String.prototype.padStart(n, c)` with a one-character pad string. -/
def jsPadStart (s : String) (n : Nat) (c : Char) : String :=
  if n ≤ s.data.length then s
  else String.mk (List.replicate (n - s.data.length) c) ++ s

/-- ASCII uppercase conversion of one character (JS `toUpperCase` on the
character sets appearing here, which are ASCII). -/
def upperChar (c : Char) : Char :=
  if 'a' ≤ c ∧ c ≤ 'z' then Char.ofNat (c.toNat - 32) else c

/-- JS `String.prototype.toUpperCase` (ASCII). -/
def jsToUpper (s : String) : String :=
  String.mk (s.data.map upperChar)

/-- Lowercase hexadecimal digit for a value below 16, as produced by JS
`Number.prototype.toString(16)`. -/
def hexDigitChar (n : Nat) : Char :=
  if n < 10 then Char.ofNat (48 + n) else Char.ofNat (87 + n)

/-- Big-endian hexadecimal digit list, fuelled so that the recursion is
structural (the fuel bounds the number of digits). -/
def natHexAux : Nat → Nat → List Char
  | _, 0 => []
  | 0, _ => []
  | fuel + 1, n => natHexAux fuel (n / 16) ++ [hexDigitChar (n % 16)]

/-- Big-endian hexadecimal digit list of a natural number (empty for 0). -/
def natHexDigits (n : Nat) : List Char := natHexAux n n

/-- JS `n.toString(16)` for a nonnegative number. -/
def jsToString16 (n : Nat) : String :=
  if n = 0 then "0" else String.mk (natHexDigits n)

/-- JS `Array.prototype.join('')`. -/
def jsJoin (l : List String) : String :=
  l.foldl (fun a b => a ++ b) ""

/-- One byte of the digest rendered as in the source:
`b.toString(16).padStart(2, '0')`. -/
def byteToHexJS (b : Nat) : String :=
  jsPadStart (jsToString16 b) 2 '0'

/-- The digest byte array rendered as in the source:
`hashArray.map(b => b.toString(16).padStart(2, '0')).join('').toUpperCase()`. -/
def bytesToHexJS (bs : List Nat) : String :=
  jsToUpper (jsJoin (bs.map byteToHexJS))

/-- UTF-8 encoding of one code point (JS `TextEncoder.encode`, per char). -/
def utf8EncodeChar (n : Nat) : List Nat :=
  if n < 128 then [n]
  else if n < 2048 then [192 + n / 64, 128 + n % 64]
  else if n < 65536 then [224 + n / 4096, 128 + (n / 64) % 64, 128 + n % 64]
  else [240 + n / 262144, 128 + (n / 4096) % 64, 128 + (n / 64) % 64, 128 + n % 64]

/-- UTF-8 encoding of a string (JS `new TextEncoder().encode(s)`). -/
def utf8Encode (s : String) : List Nat :=
  (s.data.map (fun c => utf8EncodeChar c.toNat)).flatten

/-! ### SHA-384 (`crypto.subtle.digest('SHA-384', …)`)

SHA-384 is SHA-512 with a different initial state, truncated to the first six
64-bit words.  The round constants are the first 64 bits of the fractional
parts of the cube roots of the first eighty primes, and the initial state the
first 64 bits of the fractional parts of the square roots of the ninth through
sixteenth primes; both are derived here by exact integer root extraction. -/

/-- `2 ^ 64`, the modulus of the word arithmetic. -/
def w64 : Nat := 2 ^ 64

/-- Addition mod `2 ^ 64`. -/
def add64 (a b : Nat) : Nat := (a + b) % w64

/-- Right rotation of a 64-bit word. -/
def rotr64 (x n : Nat) : Nat := ((x >>> n) ||| (x <<< (64 - n))) % w64

/-- Bitwise complement within 64 bits. -/
def compl64 (x : Nat) : Nat := x ^^^ (w64 - 1)

/-- SHA-512 choice function. -/
def chF (x y z : Nat) : Nat := (x &&& y) ^^^ (compl64 x &&& z)

/-- SHA-512 majority function. -/
def majF (x y z : Nat) : Nat := (x &&& y) ^^^ (x &&& z) ^^^ (y &&& z)

/-- SHA-512 big sigma 0. -/
def bigS0 (x : Nat) : Nat := rotr64 x 28 ^^^ rotr64 x 34 ^^^ rotr64 x 39

/-- SHA-512 big sigma 1. -/
def bigS1 (x : Nat) : Nat := rotr64 x 14 ^^^ rotr64 x 18 ^^^ rotr64 x 41

/-- SHA-512 small sigma 0. -/
def smallS0 (x : Nat) : Nat := rotr64 x 1 ^^^ rotr64 x 8 ^^^ (x >>> 7)

/-- SHA-512 small sigma 1. -/
def smallS1 (x : Nat) : Nat := rotr64 x 19 ^^^ rotr64 x 61 ^^^ (x >>> 6)

/-- Bisection step for the integer cube root. -/
def icbrtGo (n : Nat) : Nat → Nat → Nat → Nat
  | 0, lo, _ => lo
  | f + 1, lo, hi =>
    let mid := (lo + hi) / 2
    if mid = lo then lo
    else if mid ^ 3 ≤ n then icbrtGo n f mid hi else icbrtGo n f lo mid

/-- Integer cube root (largest `k` with `k ^ 3 ≤ n`). -/
def icbrt (n : Nat) : Nat := icbrtGo n 256 0 (n + 1)

/-- First 64 fractional bits of the cube root of `p`. -/
def cbrtFrac (p : Nat) : Nat := icbrt (p * 2 ^ 192) % w64

/-- Bisection step for the integer square root. -/
def isqrtGo (n : Nat) : Nat → Nat → Nat → Nat
  | 0, lo, _ => lo
  | f + 1, lo, hi =>
    let mid := (lo + hi) / 2
    if mid = lo then lo
    else if mid ^ 2 ≤ n then isqrtGo n f mid hi else isqrtGo n f lo mid

/-- Integer square root (largest `k` with `k ^ 2 ≤ n`). -/
def isqrt (n : Nat) : Nat := isqrtGo n 256 0 (n + 1)

/-- First 64 fractional bits of the square root of `p`. -/
def sqrtFrac (p : Nat) : Nat := isqrt (p * 2 ^ 128) % w64

/-- The first eighty primes, indices of the SHA-512 round constants. -/
def kPrimes : List Nat :=
  [2, 3, 5, 7, 11, 13, 17, 19, 23, 29, 31, 37, 41, 43, 47, 53, 59, 61, 67, 71,
   73, 79, 83, 89, 97, 101, 103, 107, 109, 113, 127, 131, 137, 139, 149, 151,
   157, 163, 167, 173, 179, 181, 191, 193, 197, 199, 211, 223, 227, 229, 233,
   239, 241, 251, 257, 263, 269, 271, 277, 281, 283, 293, 307, 311, 313, 317,
   331, 337, 347, 349, 353, 359, 367, 373, 379, 383, 389, 397, 401, 409]

/-- The eighty SHA-512 round constants. -/
def sha512K : List Nat := kPrimes.map cbrtFrac

/-- The eight-word working state of the compression function. -/
structure Hash8 where
  a : Nat
  b : Nat
  c : Nat
  d : Nat
  e : Nat
  f : Nat
  g : Nat
  h : Nat
  deriving Repr, DecidableEq

/-- The SHA-384 initial state. -/
def sha384IV : Hash8 :=
  ⟨sqrtFrac 23, sqrtFrac 29, sqrtFrac 31, sqrtFrac 37,
   sqrtFrac 41, sqrtFrac 43, sqrtFrac 47, sqrtFrac 53⟩

/-- Continuation-passing evaluator that brings a `Nat` to literal form before
proceeding; it keeps kernel reduction of the digest shallow and is
definitionally the identity. -/
def forceNat (n : Nat) (k : Nat → α) : α :=
  match n with
  | 0 => k 0
  | m + 1 => k (m + 1)

/-- The eighty rounds of the SHA-512 compression function, one `(k, w)` pair
per round, with each freshly computed word forced to a literal. -/
def foldRounds : Hash8 → List (Nat × Nat) → Hash8
  | st, [] => st
  | st, kw :: rest =>
    let t1 := add64 st.h (add64 (bigS1 st.e) (add64 (chF st.e st.f st.g) (add64 kw.1 kw.2)))
    let t2 := add64 (bigS0 st.a) (majF st.a st.b st.c)
    forceNat (add64 t1 t2) (fun a' =>
      forceNat (add64 st.d t1) (fun e' =>
        foldRounds ⟨a', st.a, st.b, st.c, e', st.e, st.f, st.g⟩ rest))

/-- Message-schedule expansion: `fuel` further words from the window of the
sixteen most recent words (most recent first), accumulated in reverse. -/
def msgW : Nat → List Nat → List Nat → List Nat
  | 0, _, acc => acc.reverse
  | f + 1, window, acc =>
    let nw := add64 (add64 (smallS1 (window.getD 1 0)) (window.getD 6 0))
                    (add64 (smallS0 (window.getD 14 0)) (window.getD 15 0))
    forceNat nw (fun nw' => msgW f (nw' :: window.take 15) (nw' :: acc))

/-- The eighty-word message schedule of one block. -/
def messageSchedule (block : List Nat) : List Nat :=
  block ++ msgW 64 block.reverse []

/-- Big-endian word from a byte list. -/
def bytesToWord (bs : List Nat) : Nat :=
  bs.foldl (fun acc b => acc * 256 + b) 0

/-- The sixteen 64-bit words of one 128-byte block. -/
def wordsOfBlock (bytes : List Nat) : List Nat :=
  (List.range 16).map (fun i => bytesToWord ((bytes.drop (8 * i)).take 8))

/-- SHA-512 padding: `0x80`, zeros, and the 128-bit big-endian bit length. -/
def padMessage (msg : List Nat) : List Nat :=
  let l := msg.length
  let zeros := (128 - (l + 17) % 128) % 128
  msg ++ [128] ++ List.replicate zeros 0 ++
    (List.range 16).map (fun i => (8 * l >>> (8 * (15 - i))) % 256)

/-- Split a padded message into 16-word blocks; the fuel (one unit per block)
keeps the recursion structural. -/
def toBlocksGo : Nat → List Nat → List (List Nat)
  | _, [] => []
  | 0, _ => []
  | fuel + 1, l => wordsOfBlock (l.take 128) :: toBlocksGo fuel (l.drop 128)

/-- Split a padded message into 16-word blocks. -/
def toBlocks (l : List Nat) : List (List Nat) :=
  toBlocksGo (l.length / 128 + 1) l

/-- Compression of one block into the running state. -/
def compressBlock (st : Hash8) (block : List Nat) : Hash8 :=
  let ws := messageSchedule block
  let e := foldRounds st (sha512K.zip ws)
  ⟨add64 st.a e.a, add64 st.b e.b, add64 st.c e.c, add64 st.d e.d,
   add64 st.e e.e, add64 st.f e.f, add64 st.g e.g, add64 st.h e.h⟩

/-- The eight big-endian bytes of a 64-bit word. -/
def wordBytesBE (w : Nat) : List Nat :=
  [(w >>> 56) % 256, (w >>> 48) % 256, (w >>> 40) % 256, (w >>> 32) % 256,
   (w >>> 24) % 256, (w >>> 16) % 256, (w >>> 8) % 256, w % 256]

/-- The 48-byte SHA-384 digest of a byte message. -/
def sha384Bytes (msg : List Nat) : List Nat :=
  let st := (toBlocks (padMessage msg)).foldl compressBlock sha384IV
  wordBytesBE st.a ++ wordBytesBE st.b ++ wordBytesBE st.c ++
    wordBytesBE st.d ++ wordBytesBE st.e ++ wordBytesBE st.f

/-- Uppercase hexadecimal digit test. -/
def isUpperHexDigit (c : Char) : Bool :=
  c.isDigit || ('A' ≤ c && c ≤ 'F')

/-! ### JavaScript numbers, rounding and dates

JS numeric values are modelled as rationals; `Math.round(x)` is
`⌊x + 1/2⌋` and `x.toFixed(2)` rounds to the nearest hundredth with ties
away from zero after the sign is split off, as ECMA-262 specifies. -/

/-- JS `Math.round`, which is `⌊x + 1/2⌋`; computed directly on the fraction
(`⌊(2 num + den) / (2 den)⌋` with floor division) so that the kernel can
evaluate it — `jsRound_eq_floor` below proves the two forms agree. -/
def jsRound (q : ℚ) : Int := Int.fdiv (2 * q.num + q.den) (2 * q.den)

/-- The cent count of JS `x.toFixed(2)` for nonnegative `x`: `⌊100 x + 1/2⌋`
(nearest hundredth, ties up, as ECMA-262 prescribes), again computed on the
fraction; `roundCents_eq_floor` proves the reading. -/
def roundCents (q : ℚ) : Int := Int.fdiv (200 * q.num + q.den) (2 * q.den)

/-- JS `x.toFixed(2)` for a nonnegative value. -/
def jsToFixed2Pos (q : ℚ) : String :=
  let n := (roundCents q).toNat
  toString (n / 100) ++ "." ++ jsPadStart (toString (n % 100)) 2 '0'

/-- JS `x.toFixed(2)`. -/
def jsToFixed2 (q : ℚ) : String :=
  if q < 0 then "-" ++ jsToFixed2Pos (-q) else jsToFixed2Pos q

/-- JS `||` on an optional string: the default replaces both `undefined` and
the falsy empty string. -/
def jsOrString (o : Option String) (d : String) : String :=
  match o with
  | none => d
  | some s => if s = "" then d else s

/-- Truthiness test of an optional string (`undefined` and `''` are falsy). -/
def jsFalsyOpt (o : Option String) : Bool :=
  match o with
  | none => true
  | some s => s == ""

/-- A JS `Date`, reduced to the calendar components the code reads.  The
embedding identifies the local clock with UTC, so `getFullYear` … `getSeconds`
read the fields directly and `toISOString` formats the same fields. -/
structure JSDate where
  year : Nat
  monthIndex : Nat
  day : Nat
  hours : Nat
  minutes : Nat
  seconds : Nat
  ms : Nat
  deriving Repr, DecidableEq

/-- JS `Date.prototype.toISOString`. -/
def jsToISOString (d : JSDate) : String :=
  jsPadStart (toString d.year) 4 '0' ++ "-" ++
  jsPadStart (toString (d.monthIndex + 1)) 2 '0' ++ "-" ++
  jsPadStart (toString d.day) 2 '0' ++ "T" ++
  jsPadStart (toString d.hours) 2 '0' ++ ":" ++
  jsPadStart (toString d.minutes) 2 '0' ++ ":" ++
  jsPadStart (toString d.seconds) 2 '0' ++ "." ++
  jsPadStart (toString d.ms) 3 '0' ++ "Z"

/-! ### The data transfer objects (`Invoice`, `PDFTemplate`)

`src/types.ts` is not among the sources; the fields are taken from their uses
in the four source files.  Optional fields are `Option`-valued. -/

/-- One invoice line item; only `descripcion` is read by the sources. -/
structure InvoiceItem where
  descripcion : String
  deriving Repr, DecidableEq

/-- The invoice DTO, restricted to the fields the sources read or write. -/
structure Invoice where
  id : String
  clientNit : String
  clientSegment : String
  subtotal : ℚ
  taxAmount : ℚ
  total : ℚ
  status : String
  cufe : Option String
  emissionTimestamp : Option String
  issueDate : String
  pdfGeneratedAt : Option String
  items : List InvoiceItem
  deriving Repr, DecidableEq

/-- The company block of a PDF template; only `nit` is read. -/
structure CompanyInfo where
  nit : String
  deriving Repr, DecidableEq

/-- The PDF template DTO, restricted to the fields the sources read. -/
structure PDFTemplate where
  companyInfo : CompanyInfo
  technicalKey : Option String
  segment : String
  deriving Repr, DecidableEq

/-! ### `src/lib/cufeGenerator.ts` -/

/-- The result record of `generateCUFE`. -/
structure CUFEData where
  cufe : String
  timestamp : String
  deriving Repr, DecidableEq

/-- The NIT normalization inside `generateCUFE`:
`nit.replace(/[.-]/g, '').replace(/\d$/, '')`. -/
def normalizeNit (nit : String) : String :=
  let stripped := (nit.data.filter (fun c => !(c == '.' || c == '-')))
  match stripped.getLast? with
  | some c => if c.isDigit then String.mk stripped.dropLast else String.mk stripped
  | none => String.mk stripped

/-- The `YYYYMMDDHHmmss` emission stamp built at the top of `generateCUFE`. -/
def fechaHoraCUFE (d : JSDate) : String :=
  toString d.year ++
  jsPadStart (toString (d.monthIndex + 1)) 2 '0' ++
  jsPadStart (toString d.day) 2 '0' ++
  jsPadStart (toString d.hours) 2 '0' ++
  jsPadStart (toString d.minutes) 2 '0' ++
  jsPadStart (toString d.seconds) 2 '0'

/-- A monetary amount as hashed: `Math.round(v).toString().padStart(15, '0')`. -/
def valorCUFE (v : ℚ) : String :=
  jsPadStart (toString (jsRound v)) 15 '0'

/-- `generateCUFE` of `src/lib/cufeGenerator.ts`: the SHA-384 digest, rendered
as uppercase hex, of the DIAN concatenation, together with the ISO emission
timestamp.  (`valorSubtotal` is computed by the source but never hashed; it is
kept here as the unused binding it is.) -/
def generateCUFE (invoice : Invoice) (template : PDFTemplate)
    (emissionTimestamp : JSDate) : CUFEData :=
  let fechaHora := fechaHoraCUFE emissionTimestamp
  let valorTotal := valorCUFE invoice.total
  let valorImpuesto := valorCUFE invoice.taxAmount
  let _valorSubtotal := valorCUFE invoice.subtotal
  let nitEmisor := normalizeNit template.companyInfo.nit
  let nitAdquirente := normalizeNit invoice.clientNit
  let claveTecnica := jsOrString template.technicalKey "CourierSync2025ElectronicInvoicing"
  let datosParaCUFE := jsJoin
    [invoice.id, fechaHora, valorTotal, "01", valorImpuesto, "04",
     "000000000000000", "03", "000000000000000", valorTotal,
     nitEmisor, "31", nitAdquirente, claveTecnica]
  let hash := bytesToHexJS (sha384Bytes (utf8Encode datosParaCUFE))
  { cufe := hash, timestamp := jsToISOString emissionTimestamp }

/-- `isCUFEUnique` of `src/lib/cufeGenerator.ts`. -/
def isCUFEUnique (cufe : String) (existingInvoices : List Invoice) : Bool :=
  !existingInvoices.any (fun inv => inv.cufe == some cufe)

/-! ### `src/lib/qrGenerator.ts`

The QR rendering library (`qrcode`) is external; both functions are
parametrized by the renderer they hand the payload to, an
`Except`-valued function standing for the promise returned by
`QRCode.toDataURL` / `QRCode.toBuffer`.  A thrown `Error` is an
`Except.error` carrying its message. -/

/-- The `HorFac` value: `invoice.emissionTimestamp ? new
Date(...).toLocaleTimeString('es-CO', { hour12: false }) : ''`.  The external
locale formatter is modelled as extracting the `HH:mm:ss` portion of the
stored ISO timestamp (the clock is identified with UTC throughout). -/
def horFacValue (emissionTimestamp : Option String) : String :=
  match emissionTimestamp with
  | none => ""
  | some t => if t = "" then "" else String.mk ((t.data.drop 11).take 8)

/-- JS template-literal interpolation of a possibly-`undefined` string. -/
def jsInterpOpt (o : Option String) : String :=
  match o with
  | none => "undefined"
  | some s => s

/-- The QR payload assembled inside `generateInvoiceQR` (lines 18–29). -/
def qrContentDataURL (invoice : Invoice) (template : PDFTemplate) : String :=
  String.intercalate "\n"
    ["NumFac: " ++ invoice.id,
     "FecFac: " ++ invoice.issueDate,
     "HorFac: " ++ horFacValue invoice.emissionTimestamp,
     "NitFac: " ++ template.companyInfo.nit,
     "DocAdq: " ++ invoice.clientNit,
     "ValFac: " ++ jsToFixed2 invoice.subtotal,
     "ValIva: " ++ jsToFixed2 invoice.taxAmount,
     "ValOtroIm: 0.00",
     "ValTotalFac: " ++ jsToFixed2 invoice.total,
     "CUFE: " ++ jsInterpOpt invoice.cufe]

/-- The QR payload assembled inside `generateInvoiceQRBuffer` (lines 63–74),
duplicated in the source and therefore embedded separately. -/
def qrContentBuffer (invoice : Invoice) (template : PDFTemplate) : String :=
  String.intercalate "\n"
    ["NumFac: " ++ invoice.id,
     "FecFac: " ++ invoice.issueDate,
     "HorFac: " ++ horFacValue invoice.emissionTimestamp,
     "NitFac: " ++ template.companyInfo.nit,
     "DocAdq: " ++ invoice.clientNit,
     "ValFac: " ++ jsToFixed2 invoice.subtotal,
     "ValIva: " ++ jsToFixed2 invoice.taxAmount,
     "ValOtroIm: 0.00",
     "ValTotalFac: " ++ jsToFixed2 invoice.total,
     "CUFE: " ++ jsInterpOpt invoice.cufe]

/-- The message of the missing-CUFE guard in both QR functions. -/
def missingCufeMsg : String :=
  "La factura debe tener un CUFE generado antes de crear el QR"

/-- The message rethrown when the QR library fails. -/
def qrFailedMsg : String :=
  "No se pudo generar el código QR de la factura"

/-- `generateInvoiceQR` of `src/lib/qrGenerator.ts`: guard on a truthy
`cufe`, then render the payload, rethrowing a fixed message on failure. -/
def generateInvoiceQR (render : String → Except String String)
    (invoice : Invoice) (template : PDFTemplate) : Except String String :=
  if jsFalsyOpt invoice.cufe then Except.error missingCufeMsg
  else
    match render (qrContentDataURL invoice template) with
    | Except.ok qrDataURL => Except.ok qrDataURL
    | Except.error _ => Except.error qrFailedMsg

/-- `generateInvoiceQRBuffer` of `src/lib/qrGenerator.ts`; the buffer is a
byte list. -/
def generateInvoiceQRBuffer (render : String → Except String (List Nat))
    (invoice : Invoice) (template : PDFTemplate) : Except String (List Nat) :=
  if jsFalsyOpt invoice.cufe then Except.error missingCufeMsg
  else
    match render (qrContentBuffer invoice template) with
    | Except.ok buffer => Except.ok buffer
    | Except.error _ => Except.error qrFailedMsg

/-! ### `src/components/PasswordRecovery.tsx`

The two submit handlers, embedded as pure functions from the submitted form
value and the component state to the next state plus the list of observable
effects they perform.  The effect vocabulary includes a `networkRequest`
constructor so absence of backend traffic is expressible; the handlers only
ever use the simulated `setTimeout` delay. -/

/-- An observable effect of the recovery dialog handlers. -/
inductive RecoveryEffect where
  | delay (ms : Nat)
  | toast (title : String) (description : String) (destructive : Bool)
  | networkRequest (url : String)
  deriving Repr, DecidableEq

/-- The component state the handlers touch. -/
structure RecoveryState where
  step : String
  email : String
  dialogOpen : Bool
  deriving Repr, DecidableEq

/-- `handleClose`: reset both forms, return to the email step, close. -/
def handleClose (_st : RecoveryState) : RecoveryState :=
  { step := "email", email := "", dialogOpen := false }

/-- `onSubmitEmail`: simulate sending a code, remember the email, move to the
code step and toast. -/
def onSubmitEmail (email : String) (st : RecoveryState) :
    RecoveryState × List RecoveryEffect :=
  ({ st with email := email, step := "code" },
   [RecoveryEffect.delay 1500,
    RecoveryEffect.toast "Código enviado"
      ("Se ha enviado un código de recuperación a " ++ email) false])

/-- `onSubmitCode`: after the simulated delay, accept exactly the hardcoded
`'123456'`, closing the dialog; reject anything else with an error toast. -/
def onSubmitCode (code : String) (st : RecoveryState) :
    RecoveryState × List RecoveryEffect :=
  if code = "123456" then
    (handleClose st,
     [RecoveryEffect.delay 1000,
      RecoveryEffect.toast "Código verificado"
        "Tu contraseña ha sido restablecida. Puedes iniciar sesión con cualquier contraseña." false])
  else
    (st,
     [RecoveryEffect.delay 1000,
      RecoveryEffect.toast "Código incorrecto"
        "El código ingresado no es válido. Intenta nuevamente." true])

/-! ### `src/hooks/useInvoiceEmission.ts`

`emitInvoice` is embedded as a function from the two parsed `localStorage`
stores to the `EmissionResult`, the updated stores, and the UI events (toasts
and PDF-log entries) it emits.  The `try`/`catch` of the source means the
hook never lets an exception escape: each `throw` is modelled as a jump to
the catch handler, which returns normally.  Two imported collaborators are
not among the sources and are abstracted: `validateInvoiceForEmission`
(a parameter) and `defaultTemplates` (a parameter; `find` plus the fallback
`defaultTemplates[0]`, whose absence in an empty list would crash and be
caught). -/

/-- A shipment, restricted to the fields the hook touches. -/
structure Shipment where
  id : String
  estado : String
  deriving Repr, DecidableEq

/-- Result of the (external) `validateInvoiceForEmission`. -/
structure ValidationResult where
  isValid : Bool
  errors : List String
  warnings : List String
  deriving Repr, DecidableEq

/-- The hook's `EmissionResult` interface. -/
structure EmissionResult where
  success : Bool
  invoice : Option Invoice
  errors : Option (List String)
  warnings : Option (List String)
  deriving Repr, DecidableEq

/-- The two parsed `localStorage` slots the hook reads and writes
(`STORAGE_KEYS.INVOICES`, `STORAGE_KEYS.SHIPMENTS`); `none` is an absent
key. -/
structure StorageState where
  invoices : Option (List Invoice)
  shipments : Option (List Shipment)
  deriving Repr, DecidableEq

/-- A UI event emitted during emission: a toast or a `logPDFAction` entry. -/
inductive UIEvent where
  | toastError (title : String) (description : String)
  | toastWarning (title : String) (description : String)
  | toastSuccess (title : String) (description : String)
  | logAction (invoiceId : String) (action : String)
  deriving Repr, DecidableEq

/-- The fiscal folio record produced by the folio generator. -/
structure FiscalFolio where
  id : String
  deriving Repr, DecidableEq

/-- Largest id length among a list of invoices. -/
def maxIdLen (invoices : List Invoice) : Nat :=
  (invoices.map (fun inv => inv.id.data.length)).foldr max 0

/-- Modelled from the spec: `generateFiscalFolio` lives in
`src/lib/fiscalFolioGenerator.ts`, which is not among the sources; the spec
describes emission as "generating a unique fiscal folio".  The model returns
a folio whose id is longer than every id already stored and hence differs
from all of them. -/
def generateFiscalFolio (invoices : List Invoice) : FiscalFolio :=
  ⟨"FE-" ++ String.mk (List.replicate (maxIdLen invoices + 1) '0')⟩

/-- The first match of the regex `/ENV-\d+/` in a character list: `ENV-`
followed by a maximal nonempty digit run. -/
def envMatch : List Char → Option (List Char)
  | [] => none
  | c :: rest =>
    match c, rest with
    | 'E', 'N' :: 'V' :: '-' :: d :: tail =>
      if d.isDigit then
        some ('E' :: 'N' :: 'V' :: '-' :: d :: tail.takeWhile Char.isDigit)
      else envMatch rest
    | _, _ => envMatch rest

/-- `item.descripcion.match(/ENV-\d+/)` reduced to the first matched text. -/
def envMatchStr (s : String) : Option String :=
  (envMatch s.data).map String.mk

/-- The catch handler of `emitInvoice` (lines 139–156): error toast, error
log entry, failure result, stores untouched. -/
def emitCatch (invoiceId : String) (store : StorageState) (msg : String) :
    EmissionResult × StorageState × List UIEvent :=
  ({ success := false, invoice := none, errors := some [msg], warnings := none },
   store,
   [UIEvent.toastError "Error al emitir factura" msg,
    UIEvent.logAction invoiceId "generation_error"])

/-- `emitInvoice` of `src/hooks/useInvoiceEmission.ts`.  `validate` stands for
the imported `validateInvoiceForEmission`, `defaultTemplates` for the
imported mock template list, and `now` for `new Date()` at emission time. -/
def emitInvoice (validate : Invoice → ValidationResult)
    (defaultTemplates : List PDFTemplate) (now : JSDate)
    (invoiceId : String) (store : StorageState) :
    EmissionResult × StorageState × List UIEvent :=
  match store.invoices with
  | none => emitCatch invoiceId store "No se encontraron facturas"
  | some invoices =>
    match invoices.find? (fun inv => inv.id == invoiceId) with
    | none => emitCatch invoiceId store "Factura no encontrada"
    | some invoice =>
      if invoice.status ≠ "Borrador" then
        emitCatch invoiceId store
          "Solo se pueden emitir facturas en estado \x22Borrador\x22"
      else
        let validation := validate invoice
        if !validation.isValid then
          ({ success := false, invoice := none,
             errors := some validation.errors,
             warnings := some validation.warnings },
           store,
           [UIEvent.toastError "Validación fallida"
             ("Se encontraron " ++ toString validation.errors.length ++
              " errores que impiden la emisión.")])
        else
          let fiscalFolio := generateFiscalFolio invoices
          let startLog := UIEvent.logAction invoice.id "generation_started"
          match defaultTemplates.find? (fun t => t.segment == invoice.clientSegment)
              <|> defaultTemplates.head? with
          | none =>
            -- `defaultTemplates[0]` of an empty list is `undefined`; reading
            -- `companyInfo` of it throws a TypeError, landing in the catch.
            (({ success := false, invoice := none,
                errors := some ["Error desconocido"], warnings := none }),
             store,
             [startLog,
              UIEvent.toastError "Error al emitir factura" "Error desconocido",
              UIEvent.logAction invoiceId "generation_error"])
          | some template =>
            let cufeData := generateCUFE invoice template now
            let updatedInvoice : Invoice :=
              { invoice with
                id := fiscalFolio.id,
                status := "Emitida",
                cufe := some cufeData.cufe,
                emissionTimestamp := some cufeData.timestamp,
                pdfGeneratedAt := none }
            let updatedInvoices := invoices.map (fun inv =>
              if inv.id == invoiceId then updatedInvoice else inv)
            let newShipments :=
              match store.shipments with
              | none => store.shipments
              | some shipments =>
                let shipmentIds := invoice.items.filterMap
                  (fun item => envMatchStr item.descripcion)
                some (shipments.map (fun shipment =>
                  if shipmentIds.contains shipment.id then
                    { shipment with estado := "Facturado" }
                  else shipment))
            let warningEvents := validation.warnings.map
              (fun warning => UIEvent.toastWarning "Advertencia" warning)
            (({ success := true, invoice := some updatedInvoice,
                errors := none, warnings := some validation.warnings }),
             { invoices := some updatedInvoices, shipments := newShipments },
             [startLog] ++ warningEvents ++
             [UIEvent.toastSuccess "Factura emitida exitosamente"
                ("Folio fiscal: " ++ fiscalFolio.id),
              UIEvent.logAction fiscalFolio.id "generation_success"])

/-! ### The concatenation claimed for the CUFE payload

`cufeClaimConcat` transcribes the claimed hash input word for word: the
technical key is the stored one, with the default only when the key is
absent.  `cufeAmendedConcat` differs in the single place the source does:
the default also replaces a present-but-empty technical key (the JS falsy
test of line 37 of `cufeGenerator.ts`). -/

/-- The technical key as the claim reads: default only when absent. -/
def cufeClaimKey (template : PDFTemplate) : String :=
  template.technicalKey.getD "CourierSync2025ElectronicInvoicing"

/-- The claimed fourteen-part concatenation hashed for the CUFE. -/
def cufeClaimConcat (invoice : Invoice) (template : PDFTemplate)
    (ts : JSDate) : String :=
  jsJoin
    [invoice.id, fechaHoraCUFE ts, valorCUFE invoice.total, "01",
     valorCUFE invoice.taxAmount, "04", "000000000000000", "03",
     "000000000000000", valorCUFE invoice.total,
     normalizeNit template.companyInfo.nit, "31",
     normalizeNit invoice.clientNit, cufeClaimKey template]

/-- The technical key as the source computes: default when absent or empty. -/
def cufeAmendedKey (template : PDFTemplate) : String :=
  match template.technicalKey with
  | none => "CourierSync2025ElectronicInvoicing"
  | some k => if k = "" then "CourierSync2025ElectronicInvoicing" else k

/-- The claimed concatenation, amended in the technical-key position only. -/
def cufeAmendedConcat (invoice : Invoice) (template : PDFTemplate)
    (ts : JSDate) : String :=
  jsJoin
    [invoice.id, fechaHoraCUFE ts, valorCUFE invoice.total, "01",
     valorCUFE invoice.taxAmount, "04", "000000000000000", "03",
     "000000000000000", valorCUFE invoice.total,
     normalizeNit template.companyInfo.nit, "31",
     normalizeNit invoice.clientNit, cufeAmendedKey template]

/-! ### Concrete fixtures used by the witnesses -/

/-- A sample template with a populated technical key. -/
def tmplA : PDFTemplate :=
  { companyInfo := { nit := "900.123.456-1" },
    technicalKey := some "KEY",
    segment := "empresarial" }

/-- A sample template whose technical key is present but empty. -/
def tmplEmptyKey : PDFTemplate :=
  { companyInfo := { nit := "2" },
    technicalKey := some "",
    segment := "empresarial" }

/-- A sample draft invoice. -/
def invDraft : Invoice :=
  { id := "FACT-1", clientNit := "800123456-7", clientSegment := "empresarial",
    subtotal := 100, taxAmount := 19, total := 119, status := "Borrador",
    cufe := none, emissionTimestamp := none, issueDate := "2025-01-15",
    pdfGeneratedAt := none, items := [{ descripcion := "Transporte ENV-12345" }] }

/-- A sample emitted invoice carrying a CUFE. -/
def invEmitted : Invoice :=
  { invDraft with
    id := "FE-000001", status := "Emitida", cufe := some "ABCDEF",
    emissionTimestamp := some "2025-01-15T10:30:00.000Z" }

/-- A minimal invoice keeping the hashed payload short. -/
def invTiny : Invoice :=
  { id := "A", clientNit := "1", clientSegment := "x",
    subtotal := 0, taxAmount := 0, total := 0, status := "Borrador",
    cufe := none, emissionTimestamp := none, issueDate := "2025-01-01",
    pdfGeneratedAt := none, items := [] }

/-- A sample emission instant. -/
def dateA : JSDate :=
  { year := 2025, monthIndex := 0, day := 15,
    hours := 10, minutes := 30, seconds := 0, ms := 0 }

/-! ### Validation of the arithmetic models -/

set_option maxRecDepth 1000000 in
/-- The embedded digest agrees with the NIST test vector for SHA-384 of
`"abc"`, validating the model of the external `crypto.subtle` SHA-384. -/
theorem sha384_nist_abc :
    bytesToHexJS (sha384Bytes (utf8Encode "abc")) =
      "CB00753F45A35E8BB5A03D699AC65007272C32AB0EDED1631A8B605A43FF5BED8086072BA1E7CC2358BAECA134C825A7" := by
  decide

/-- `jsRound` is `⌊x + 1/2⌋`, the JS `Math.round`. -/
theorem jsRound_eq_floor (q : ℚ) : jsRound q = ⌊q + 1 / 2⌋ := by
  have hden : ((q.den : ℚ)) ≠ 0 := Nat.cast_ne_zero.mpr q.den_nz
  have h2d : (0 : ℤ) ≤ 2 * (q.den : ℤ) := by positivity
  have key : q + 1 / 2 = ((2 * q.num + (q.den : ℤ) : ℤ) : ℚ) / (((2 * q.den : ℕ)) : ℚ) := by
    conv_lhs => rw [← Rat.num_div_den q]
    push_cast
    field_simp
    ring
  simp only [jsRound]
  rw [Int.fdiv_eq_ediv _ h2d, key, Rat.floor_intCast_div_natCast]
  push_cast
  rfl

/-- `roundCents` is `⌊100 x + 1/2⌋`, the cent count of `toFixed(2)`. -/
theorem roundCents_eq_floor (q : ℚ) : roundCents q = ⌊q * 100 + 1 / 2⌋ := by
  have hden : ((q.den : ℚ)) ≠ 0 := Nat.cast_ne_zero.mpr q.den_nz
  have h2d : (0 : ℤ) ≤ 2 * (q.den : ℤ) := by positivity
  have key : q * 100 + 1 / 2 =
      ((200 * q.num + (q.den : ℤ) : ℤ) : ℚ) / (((2 * q.den : ℕ)) : ℚ) := by
    conv_lhs => rw [← Rat.num_div_den q]
    push_cast
    field_simp
    ring
  simp only [roundCents]
  rw [Int.fdiv_eq_ediv _ h2d, key, Rat.floor_intCast_div_natCast]
  push_cast
  rfl

/-! ### Claims about the QR generator -/

/-- Claim C2: without a truthy `cufe` both QR functions fail with the guard
message for every renderer (so before any rendering); with a truthy `cufe`
and a succeeding renderer they return exactly the rendered output. -/
theorem qr_requires_cufe
    (renderD : String → Except String String)
    (renderB : String → Except String (List Nat))
    (invoice : Invoice) (template : PDFTemplate) :
    (jsFalsyOpt invoice.cufe = true →
      generateInvoiceQR renderD invoice template = Except.error missingCufeMsg ∧
      generateInvoiceQRBuffer renderB invoice template = Except.error missingCufeMsg) ∧
    (jsFalsyOpt invoice.cufe = false →
      (∀ out, renderD (qrContentDataURL invoice template) = Except.ok out →
        generateInvoiceQR renderD invoice template = Except.ok out) ∧
      (∀ out, renderB (qrContentBuffer invoice template) = Except.ok out →
        generateInvoiceQRBuffer renderB invoice template = Except.ok out)) := by
  constructor
  · intro h
    simp [generateInvoiceQR, generateInvoiceQRBuffer, h]
  · intro h
    constructor <;> intro out hout <;>
      simp [generateInvoiceQR, generateInvoiceQRBuffer, h, hout]

/-- Witness for C2: a missing CUFE is rejected and a present one rendered,
at concrete inputs. -/
theorem qr_requires_cufe_witness :
    generateInvoiceQR (fun s => Except.ok ("url:" ++ s)) invDraft tmplA =
      Except.error missingCufeMsg ∧
    generateInvoiceQR (fun s => Except.ok ("url:" ++ s)) invEmitted tmplA =
      Except.ok ("url:" ++ qrContentDataURL invEmitted tmplA) :=
  ⟨(qr_requires_cufe (fun s => Except.ok ("url:" ++ s))
      (fun _ => Except.ok [0]) invDraft tmplA).1 (by decide) |>.1,
   ((qr_requires_cufe (fun s => Except.ok ("url:" ++ s))
      (fun _ => Except.ok [0]) invEmitted tmplA).2 (by decide)).1 _ rfl⟩

/-- Claim C5: with a present nonempty CUFE, the payload handed to the QR
encoder is the ten labelled lines joined by newlines, with the claimed
values in the value positions. -/
theorem qr_payload_structure (invoice : Invoice) (template : PDFTemplate)
    (c : String) (hc : invoice.cufe = some c) (hne : c ≠ "") :
    qrContentDataURL invoice template = String.intercalate "\n"
      ["NumFac: " ++ invoice.id,
       "FecFac: " ++ invoice.issueDate,
       "HorFac: " ++ horFacValue invoice.emissionTimestamp,
       "NitFac: " ++ template.companyInfo.nit,
       "DocAdq: " ++ invoice.clientNit,
       "ValFac: " ++ jsToFixed2 invoice.subtotal,
       "ValIva: " ++ jsToFixed2 invoice.taxAmount,
       "ValOtroIm: 0.00",
       "ValTotalFac: " ++ jsToFixed2 invoice.total,
       "CUFE: " ++ c] ∧
    ∀ render out, render (qrContentDataURL invoice template) = Except.ok out →
      generateInvoiceQR render invoice template = Except.ok out := by
  constructor
  · simp [qrContentDataURL, jsInterpOpt, hc]
  · intro render out hout
    simp [generateInvoiceQR, jsFalsyOpt, hc, hne, hout]

/-- Witness for C5 at a concrete emitted invoice. -/
theorem qr_payload_structure_witness :
    qrContentDataURL invEmitted tmplA = String.intercalate "\n"
      ["NumFac: " ++ invEmitted.id,
       "FecFac: " ++ invEmitted.issueDate,
       "HorFac: " ++ horFacValue invEmitted.emissionTimestamp,
       "NitFac: " ++ tmplA.companyInfo.nit,
       "DocAdq: " ++ invEmitted.clientNit,
       "ValFac: " ++ jsToFixed2 invEmitted.subtotal,
       "ValIva: " ++ jsToFixed2 invEmitted.taxAmount,
       "ValOtroIm: 0.00",
       "ValTotalFac: " ++ jsToFixed2 invEmitted.total,
       "CUFE: " ++ "ABCDEF"] ∧
    ∀ render out, render (qrContentDataURL invEmitted tmplA) = Except.ok out →
      generateInvoiceQR render invEmitted tmplA = Except.ok out :=
  qr_payload_structure invEmitted tmplA "ABCDEF" rfl (by decide)

/-- Claim C10: the two QR functions assemble the identical payload string,
and the buffer variant differs from the data-URL variant only in what the
renderer returns for that same payload. -/
theorem qr_buffer_same_content (invoice : Invoice) (template : PDFTemplate) :
    qrContentBuffer invoice template = qrContentDataURL invoice template ∧
    ∀ render : String → Except String (List Nat),
      generateInvoiceQRBuffer render invoice template =
        (if jsFalsyOpt invoice.cufe then Except.error missingCufeMsg
         else match render (qrContentDataURL invoice template) with
              | Except.ok buffer => Except.ok buffer
              | Except.error _ => Except.error qrFailedMsg) :=
  ⟨rfl, fun _ => rfl⟩

/-! ### Claims about the CUFE generator -/

/-- Claim C4: `generateCUFE` is a deterministic function of the fields it
reads from its three arguments (invoice id, total, tax, client NIT; template
NIT and technical key; the date) — equal there, the results are equal, so in
particular equal full inputs give equal results and nothing outside the three
arguments enters. -/
theorem generateCUFE_deterministic (i1 i2 : Invoice) (t1 t2 : PDFTemplate)
    (d1 d2 : JSDate)
    (hid : i1.id = i2.id) (htot : i1.total = i2.total)
    (htax : i1.taxAmount = i2.taxAmount) (hnit : i1.clientNit = i2.clientNit)
    (hcompany : t1.companyInfo.nit = t2.companyInfo.nit)
    (hkey : t1.technicalKey = t2.technicalKey) (hd : d1 = d2) :
    generateCUFE i1 t1 d1 = generateCUFE i2 t2 d2 := by
  subst hd
  simp only [generateCUFE]
  rw [hid, htot, htax, hnit, hcompany, hkey]

/-- Witness for C4: two invoices differing in subtotal and status (fields the
digest never reads) and two templates differing in segment hash equally. -/
theorem generateCUFE_deterministic_witness :
    generateCUFE invDraft tmplA dateA =
      generateCUFE { invDraft with subtotal := 999, status := "Emitida" }
        { tmplA with segment := "personal" } dateA :=
  generateCUFE_deterministic _ _ _ _ _ _ rfl rfl rfl rfl rfl rfl rfl

/-- Claim C9: the NIT normalization strips dots and hyphens and then drops a
trailing digit whether or not a hyphen separated it, so a NIT given without
its verification digit still loses its last digit, and `generateCUFE` hashes
the hyphenated and unhyphenated spellings identically. -/
theorem nit_normalization_drops_last_digit (t : List Char) (d : Char)
    (hd : d.isDigit = true) (ht : ∀ c ∈ t, c.isDigit = true) :
    normalizeNit (String.mk (t ++ [d])) = String.mk t ∧
    normalizeNit (String.mk (t ++ ['-', d])) = String.mk t ∧
    ∀ (inv : Invoice) (tmpl : PDFTemplate) (ts : JSDate),
      generateCUFE { inv with clientNit := String.mk (t ++ [d]) } tmpl ts =
        generateCUFE { inv with clientNit := String.mk (t ++ ['-', d]) } tmpl ts := by
  have hpred : ∀ c : Char, c.isDigit = true → (!(c == '.' || c == '-')) = true := by
    intro c hc
    by_cases h1 : c = '.'
    · subst h1; simp at hc
    · by_cases h2 : c = '-'
      · subst h2; simp at hc
      · simp [h1, h2]
  have hfilt : t.filter (fun c => !(c == '.' || c == '-')) = t :=
    List.filter_eq_self.mpr (fun c hc => hpred c (ht c hc))
  have h1 : normalizeNit (String.mk (t ++ [d])) = String.mk t := by
    simp only [normalizeNit, List.filter_append, hfilt,
      List.filter_cons, List.filter_nil, hpred d hd]
    simp [List.getLast?_concat, hd]
  have h2 : normalizeNit (String.mk (t ++ ['-', d])) = String.mk t := by
    simp only [normalizeNit, List.filter_append, hfilt,
      List.filter_cons, List.filter_nil, hpred d hd]
    simp [List.getLast?_concat, hd]
  refine ⟨h1, h2, fun inv tmpl ts => ?_⟩
  simp only [generateCUFE]
  rw [h1, h2]

/-- Witness for C9: the normalization at a concrete NIT with and without its
hyphen. -/
theorem nit_normalization_drops_last_digit_witness :
    normalizeNit (String.mk (['8', '0', '0', '1', '2', '3', '4', '5', '6'] ++ ['7'])) =
      String.mk ['8', '0', '0', '1', '2', '3', '4', '5', '6'] ∧
    normalizeNit (String.mk (['8', '0', '0', '1', '2', '3', '4', '5', '6'] ++ ['-', '7'])) =
      String.mk ['8', '0', '0', '1', '2', '3', '4', '5', '6'] :=
  ⟨(nit_normalization_drops_last_digit ['8', '0', '0', '1', '2', '3', '4', '5', '6']
      '7' (by decide) (by decide)).1,
   (nit_normalization_drops_last_digit ['8', '0', '0', '1', '2', '3', '4', '5', '6']
      '7' (by decide) (by decide)).2.1⟩

/-- Claim C6: code verification succeeds, closing the dialog, exactly for the
hardcoded 123456; every other code draws the destructive error toast; and
neither handler performs any network request. -/
theorem password_recovery_code_check (code : String) (st : RecoveryState) :
    ((RecoveryEffect.toast "Código verificado"
        "Tu contraseña ha sido restablecida. Puedes iniciar sesión con cualquier contraseña."
        false ∈ (onSubmitCode code st).2 ∧
      (onSubmitCode code st).1.dialogOpen = false) ↔ code = "123456") ∧
    (code ≠ "123456" →
      RecoveryEffect.toast "Código incorrecto"
        "El código ingresado no es válido. Intenta nuevamente." true ∈
          (onSubmitCode code st).2 ∧
      (onSubmitCode code st).1 = st) ∧
    (∀ url, RecoveryEffect.networkRequest url ∉ (onSubmitCode code st).2) ∧
    (∀ email st2 url,
      RecoveryEffect.networkRequest url ∉ (onSubmitEmail email st2).2) := by
  by_cases hc : code = "123456" <;>
    simp [onSubmitCode, onSubmitEmail, handleClose, hc]

/-! ### Shape of the rendered digest (claim C8) -/

/-- Every entry of `wordBytesBE` is a byte value. -/
theorem wordBytesBE_lt (w : Nat) : ∀ b ∈ wordBytesBE w, b < 256 := by
  intro b hb
  simp only [wordBytesBE, List.mem_cons, List.not_mem_nil, or_false] at hb
  rcases hb with rfl | rfl | rfl | rfl | rfl | rfl | rfl | rfl <;> omega

/-- The digest always has 48 bytes. -/
theorem sha384Bytes_length (msg : List Nat) : (sha384Bytes msg).length = 48 := by
  simp [sha384Bytes, wordBytesBE]

/-- Every digest entry is a byte value. -/
theorem sha384Bytes_lt (msg : List Nat) : ∀ b ∈ sha384Bytes msg, b < 256 := by
  intro b hb
  simp only [sha384Bytes, List.mem_append] at hb
  rcases hb with ((((h | h) | h) | h) | h) | h <;> exact wordBytesBE_lt _ b h

/-- String append concatenates the character data. -/
theorem data_append (s u : String) : (s ++ u).data = s.data ++ u.data := rfl

/-- `jsJoin` concatenates the character data of its parts. -/
theorem jsJoin_data (l : List String) :
    (jsJoin l).data = (l.map String.data).flatten := by
  suffices h : ∀ init : String,
      (l.foldl (fun a b => a ++ b) init).data =
        init.data ++ (l.map String.data).flatten by
    simpa using h ""
  induction l with
  | nil => intro init; simp
  | cons x xs ih =>
    intro init
    simp only [List.foldl_cons, List.map_cons, List.flatten_cons, ih, data_append,
      List.append_assoc]

set_option maxRecDepth 100000 in
/-- For byte values, the two-character rendering is two characters long and
uppercases to hexadecimal digits. -/
theorem byteToHexJS_ok : ∀ b, b < 256 →
    (byteToHexJS b).data.length = 2 ∧
    ∀ c ∈ (byteToHexJS b).data, isUpperHexDigit (upperChar c) = true := by
  decide

/-- A flatten of two-character chunks has twice as many characters. -/
theorem flatten_len_two (L : List (List Char)) (h : ∀ x ∈ L, x.length = 2) :
    L.flatten.length = 2 * L.length := by
  induction L with
  | nil => simp
  | cons x xs ih =>
    simp only [List.flatten_cons, List.length_append, List.length_cons,
      h x (List.mem_cons_self x xs),
      ih (fun y hy => h y (List.mem_cons_of_mem x hy))]
    omega

/-- The hex rendering of a byte list: length doubles and every character is
an uppercase hexadecimal digit. -/
theorem bytesToHexJS_shape (bs : List Nat) (h : ∀ b ∈ bs, b < 256) :
    (bytesToHexJS bs).length = 2 * bs.length ∧
    ∀ c ∈ (bytesToHexJS bs).data, isUpperHexDigit c = true := by
  have hdata : (bytesToHexJS bs).data =
      (((bs.map byteToHexJS).map String.data).flatten).map upperChar := by
    simp [bytesToHexJS, jsToUpper, jsJoin_data]
  constructor
  · show (bytesToHexJS bs).data.length = 2 * bs.length
    rw [hdata, List.length_map,
      flatten_len_two _ (by
        intro x hx
        simp only [List.mem_map] at hx
        obtain ⟨s, ⟨b, hb, rfl⟩, rfl⟩ := hx
        exact (byteToHexJS_ok b (h b hb)).1)]
    simp
  · intro c hc
    rw [hdata] at hc
    simp only [List.mem_map, List.mem_flatten] at hc
    obtain ⟨c0, ⟨x, hx, hc0⟩, rfl⟩ := hc
    obtain ⟨s, ⟨b, hb, rfl⟩, rfl⟩ := hx
    exact (byteToHexJS_ok b (h b hb)).2 c0 hc0

/-- Claim C8: the CUFE string is always 96 characters, each an uppercase
hexadecimal digit: 48 digest bytes, each rendered as two zero-padded hex
characters and uppercased. -/
theorem cufe_hex_shape (invoice : Invoice) (template : PDFTemplate)
    (ts : JSDate) :
    (generateCUFE invoice template ts).cufe.length = 96 ∧
    ∀ c ∈ (generateCUFE invoice template ts).cufe.data,
      isUpperHexDigit c = true := by
  have key : ∀ msg : List Nat,
      (bytesToHexJS (sha384Bytes msg)).length = 96 ∧
      ∀ c ∈ (bytesToHexJS (sha384Bytes msg)).data, isUpperHexDigit c = true := by
    intro msg
    have h := bytesToHexJS_shape (sha384Bytes msg) (sha384Bytes_lt msg)
    rw [sha384Bytes_length] at h
    exact ⟨h.1, h.2⟩
  exact key _

/-- Witness for C6: the wrong code 000000 is rejected with the error toast at
a concrete state. -/
theorem password_recovery_code_check_witness :
    RecoveryEffect.toast "Código incorrecto"
      "El código ingresado no es válido. Intenta nuevamente." true ∈
        (onSubmitCode "000000" ⟨"code", "user@mail.com", true⟩).2 ∧
    (onSubmitCode "000000" ⟨"code", "user@mail.com", true⟩).1 =
      ⟨"code", "user@mail.com", true⟩ :=
  (password_recovery_code_check "000000" ⟨"code", "user@mail.com", true⟩).2.1
    (by decide)

/-! ### Claims about the emission hook -/

/-- The catch handler fails, keeps the stores, carries the message and
toasts it. -/
theorem emitCatch_spec (invoiceId : String) (store : StorageState) (msg : String) :
    (emitCatch invoiceId store msg).1.success = false ∧
    (emitCatch invoiceId store msg).2.1 = store ∧
    (emitCatch invoiceId store msg).1.errors ≠ none ∧
    ∃ t d, UIEvent.toastError t d ∈ (emitCatch invoiceId store msg).2.2 :=
  ⟨rfl, rfl, by simp [emitCatch], "Error al emitir factura", msg, by simp [emitCatch]⟩

/-- Claim C3: whenever the targeted invoice is missing, not a draft, or fails
fiscal validation, `emitInvoice` returns failure carrying error messages,
leaves both stores untouched, and surfaces the problem as an error toast (the
embedding returns normally — the catch swallows every throw). -/
theorem emitInvoice_failure_preserves_storage
    (validate : Invoice → ValidationResult) (templates : List PDFTemplate)
    (now : JSDate) (invoiceId : String) (store : StorageState)
    (hfail : ∀ invoices, store.invoices = some invoices →
      ∀ invoice, invoices.find? (fun inv => inv.id == invoiceId) = some invoice →
        invoice.status ≠ "Borrador" ∨ (validate invoice).isValid = false) :
    (emitInvoice validate templates now invoiceId store).1.success = false ∧
    (emitInvoice validate templates now invoiceId store).2.1 = store ∧
    (emitInvoice validate templates now invoiceId store).1.errors ≠ none ∧
    ∃ t d, UIEvent.toastError t d ∈
      (emitInvoice validate templates now invoiceId store).2.2 := by
  obtain ⟨sInv, sShip⟩ := store
  cases sInv with
  | none =>
    exact emitCatch_spec invoiceId ⟨none, sShip⟩ "No se encontraron facturas"
  | some invoices =>
    cases hfind : invoices.find? (fun inv => inv.id == invoiceId) with
    | none =>
      have he : emitInvoice validate templates now invoiceId ⟨some invoices, sShip⟩ =
          emitCatch invoiceId ⟨some invoices, sShip⟩ "Factura no encontrada" := by
        simp [emitInvoice, hfind]
      rw [he]
      exact emitCatch_spec _ _ _
    | some invoice =>
      have hv := hfail invoices rfl invoice hfind
      by_cases hst : invoice.status = "Borrador"
      · have hval : (validate invoice).isValid = false := by
          rcases hv with h | h
          · exact absurd hst h
          · exact h
        have he : emitInvoice validate templates now invoiceId ⟨some invoices, sShip⟩ =
            ({ success := false, invoice := none,
               errors := some (validate invoice).errors,
               warnings := some (validate invoice).warnings },
             ⟨some invoices, sShip⟩,
             [UIEvent.toastError "Validación fallida"
               ("Se encontraron " ++ toString (validate invoice).errors.length ++
                " errores que impiden la emisión.")]) := by
          simp [emitInvoice, hfind, hst, hval]
        rw [he]
        exact ⟨rfl, rfl, by simp, "Validación fallida",
          "Se encontraron " ++ toString (validate invoice).errors.length ++
            " errores que impiden la emisión.", by simp⟩
      · have he : emitInvoice validate templates now invoiceId ⟨some invoices, sShip⟩ =
            emitCatch invoiceId ⟨some invoices, sShip⟩
              "Solo se pueden emitir facturas en estado \x22Borrador\x22" := by
          simp [emitInvoice, hfind, hst]
        rw [he]
        exact emitCatch_spec _ _ _

/-- Witness for C3: emitting an already-emitted invoice fails, keeps the
stores and toasts. -/
theorem emitInvoice_failure_preserves_storage_witness :
    (emitInvoice (fun _ => ⟨true, [], []⟩) [tmplA] dateA "FE-000001"
        ⟨some [invEmitted], some []⟩).1.success = false ∧
    (emitInvoice (fun _ => ⟨true, [], []⟩) [tmplA] dateA "FE-000001"
        ⟨some [invEmitted], some []⟩).2.1 = ⟨some [invEmitted], some []⟩ ∧
    (emitInvoice (fun _ => ⟨true, [], []⟩) [tmplA] dateA "FE-000001"
        ⟨some [invEmitted], some []⟩).1.errors ≠ none ∧
    ∃ t d, UIEvent.toastError t d ∈
      (emitInvoice (fun _ => ⟨true, [], []⟩) [tmplA] dateA "FE-000001"
        ⟨some [invEmitted], some []⟩).2.2 :=
  emitInvoice_failure_preserves_storage (fun _ => ⟨true, [], []⟩) [tmplA] dateA
    "FE-000001" ⟨some [invEmitted], some []⟩
    (by
      intro invs hi inv hf
      obtain rfl : [invEmitted] = invs := Option.some.inj hi
      obtain rfl : invEmitted = inv := Option.some.inj hf
      left
      decide)

/-- Every stored id is bounded by the running maximum. -/
theorem le_maxIdLen (invoices : List Invoice) :
    ∀ inv ∈ invoices, inv.id.data.length ≤ maxIdLen invoices := by
  induction invoices with
  | nil => simp
  | cons x xs ih =>
    intro inv hinv
    simp only [maxIdLen, List.map_cons, List.foldr_cons]
    rcases List.mem_cons.mp hinv with rfl | h
    · exact le_max_left _ _
    · exact le_trans (ih inv h) (le_max_right _ _)

/-- The generated folio id is longer than, hence different from, every stored
id. -/
theorem generateFiscalFolio_fresh (invoices : List Invoice) :
    ∀ inv ∈ invoices, (generateFiscalFolio invoices).id ≠ inv.id := by
  intro inv hinv heq
  have hlen := congrArg (fun s : String => s.data.length) heq
  simp only [generateFiscalFolio, data_append, List.length_append,
    List.length_replicate] at hlen
  have hle := le_maxIdLen invoices inv hinv
  have hsame : inv.id.length = inv.id.data.length := rfl
  simp at hlen
  omega

/-- Claim C7: a successful emission assigns the freshly generated fiscal
folio id to the emitted invoice, and that id differs from the id of every
invoice already stored. -/
theorem emitted_folio_unique
    (validate : Invoice → ValidationResult) (templates : List PDFTemplate)
    (now : JSDate) (invoiceId : String) (store : StorageState)
    (invoices : List Invoice) (hstore : store.invoices = some invoices)
    (hsucc : (emitInvoice validate templates now invoiceId store).1.success = true) :
    ∃ newInv,
      (emitInvoice validate templates now invoiceId store).1.invoice = some newInv ∧
      newInv.id = (generateFiscalFolio invoices).id ∧
      ∀ old ∈ invoices, newInv.id ≠ old.id := by
  obtain ⟨sInv, sShip⟩ := store
  obtain rfl : sInv = some invoices := hstore
  cases hfind : invoices.find? (fun inv => inv.id == invoiceId) with
  | none =>
    have he : emitInvoice validate templates now invoiceId ⟨some invoices, sShip⟩ =
        emitCatch invoiceId ⟨some invoices, sShip⟩ "Factura no encontrada" := by
      simp [emitInvoice, hfind]
    rw [he] at hsucc
    simp [emitCatch] at hsucc
  | some invoice =>
    by_cases hst : invoice.status = "Borrador"
    · by_cases hval : (validate invoice).isValid = true
      · cases htempl : templates.find? (fun t => t.segment == invoice.clientSegment)
            <|> templates.head? with
        | none =>
          have he : (emitInvoice validate templates now invoiceId
              ⟨some invoices, sShip⟩).1.success = false := by
            simp [emitInvoice, hfind, hst, hval, htempl]
          rw [he] at hsucc
          cases hsucc
        | some template =>
          simp only [emitInvoice, hfind, hst, hval, htempl]
          simp only [ne_eq, not_true_eq_false, Bool.false_eq_true, if_false,
            Bool.not_true, Bool.false_eq_true]
          refine ⟨_, rfl, rfl, fun old hold => ?_⟩
          exact generateFiscalFolio_fresh invoices old hold
      · have hv : (validate invoice).isValid = false := by
          simpa using hval
        have he : (emitInvoice validate templates now invoiceId
            ⟨some invoices, sShip⟩).1.success = false := by
          simp [emitInvoice, hfind, hst, hv]
        rw [he] at hsucc
        cases hsucc
    · have he : emitInvoice validate templates now invoiceId ⟨some invoices, sShip⟩ =
          emitCatch invoiceId ⟨some invoices, sShip⟩
            "Solo se pueden emitir facturas en estado \x22Borrador\x22" := by
        simp [emitInvoice, hfind, hst]
      rw [he] at hsucc
      simp [emitCatch] at hsucc

/-- Witness for C7: a concrete successful emission carries a folio id unlike
any stored id. -/
theorem emitted_folio_unique_witness :
    ∃ newInv,
      (emitInvoice (fun _ => ⟨true, [], []⟩) [tmplA] dateA "FACT-1"
        ⟨some [invDraft], none⟩).1.invoice = some newInv ∧
      newInv.id = (generateFiscalFolio [invDraft]).id ∧
      ∀ old ∈ [invDraft], newInv.id ≠ old.id :=
  emitted_folio_unique (fun _ => ⟨true, [], []⟩) [tmplA] dateA "FACT-1"
    ⟨some [invDraft], none⟩ [invDraft] rfl (by decide)

/-! ### The payload claim (C1) -/

/-- Claim C1 (amended): `generateCUFE` returns exactly the uppercase-hex
SHA-384 of the claimed fourteen-part concatenation — with the technical-key
default applying when the stored key is absent or empty — plus the ISO
emission timestamp. -/
theorem generateCUFE_payload_amended (invoice : Invoice)
    (template : PDFTemplate) (ts : JSDate) :
    generateCUFE invoice template ts =
      { cufe := bytesToHexJS (sha384Bytes (utf8Encode
          (cufeAmendedConcat invoice template ts))),
        timestamp := jsToISOString ts } :=
  rfl

set_option maxRecDepth 4000000 in
/-- Counterexample to claim C1 as stated: for a template whose technical key
is present but empty, the source hashes the default key (JS falsy test),
while the claimed payload — default only when the key is absent — hashes the
empty key, and the digests differ. -/
theorem generateCUFE_claimed_payload_counterexample :
    ¬ (generateCUFE invTiny tmplEmptyKey dateA =
      { cufe := bytesToHexJS (sha384Bytes (utf8Encode
          (cufeClaimConcat invTiny tmplEmptyKey dateA))),
        timestamp := jsToISOString dateA }) := by
  decide

end CourierSync
